import Mathlib

/-!
Shallow embedding of `src/rfid.py` (class `RFID`): the MFRC522-style
reader-chip protocol core.  The physical chip is external hardware reached
over I2C; register writes address the chip and are not observable to the
Python code, while register reads return whatever the chip supplies.  The
embedding therefore models the environment as oracles supplying the read
values whose results actually flow into the computation:

  * the successive COM_IRQ values observed by the `_tocard` poll loop,
  * the ERROR register value read after the loop,
  * the FIFO_LEVEL and CONTROL values read in the transceive drain phase,
  * the successive FIFO_DATA bytes drained,
  * the two CRC result registers read by `_crc`.

Reads performed inside `_sflags`/`_cflags` read-modify-write cycles are
write-only in effect (the value is combined with a mask and written back to
the external chip) and so do not appear in the oracle.  Each call to
`_tocard` and `_crc` is a fresh bus transaction; `ChipEnv` indexes the
per-transaction oracles, and `ChipState` tracks which transaction is next
together with a trace of every frame handed to `_tocard` (command byte and
payload), which makes "which protocol steps were performed" provable.

Bytes are modelled as `Nat` (Python ints; `_rreg` returns one byte, but the
model does not need the bound except where a claim states it).  The
`bits` count computed by `_tocard` is `Int`, because Python computes
`(n - 1) * 8 + lbits`, which is negative when the FIFO level `n` is zero.
-/

namespace Rfid

/-- `RFID.OK` (src/rfid.py line 62). -/
def OK : Nat := 1

/-- `RFID.NOTAGERR` (line 63). -/
def NOTAGERR : Nat := 2

/-- `RFID.ERR` (line 64). -/
def ERR : Nat := 3

/-- `_CMD_TRANCEIVE = 0x0C` (line 46). -/
def CMD_TRANCEIVE : Nat := 0x0C

/-- `_CMD_MF_AUTHENT = 0x0E` (line 47). -/
def CMD_MF_AUTHENT : Nat := 0x0E

/-- Oracle for one `_tocard` bus transaction: the read values that flow
into the result.  `irq k` is the value of the k-th COM_IRQ poll read;
`errorReg`, `fifoLevel`, `control` are the ERROR, FIFO_LEVEL and CONTROL
register reads of lines 150, 156, 157; `fifoData k` is the k-th byte
drained from the FIFO register (line 168). -/
structure TocardEnv where
  irq : Nat → Nat
  errorReg : Nat
  fifoLevel : Nat
  control : Nat
  fifoData : Nat → Nat

/-- Oracle for one `_crc` transaction: the two CRC result registers
(line 190).  The DIV_IRQ poll of lines 184-188 is a busy-wait whose
observed values never flow into the returned value, so they are not
modelled. -/
structure CrcEnv where
  crcLsb : Nat
  crcMsb : Nat

/-- The whole chip environment: the oracle of the i-th `_tocard`
transaction and of the j-th `_crc` transaction. -/
structure ChipEnv where
  tocardEnvs : Nat → TocardEnv
  crcEnvs : Nat → CrcEnv

/-- Cursor into `ChipEnv` plus the trace of frames handed to `_tocard`
(each entry is the `cmd` byte and the `send` payload). -/
structure ChipState where
  tIdx : Nat
  cIdx : Nat
  trace : List (Nat × List Nat)
deriving DecidableEq

/-- Initial state: no transactions performed. -/
def s0 : ChipState := ⟨0, 0, []⟩

/-- Lines 121-126: the per-command interrupt-enable mask and wait bit,
returned as `(irq_en, wait_irq)`; commands other than MF_AUTHENT and
TRANCEIVE leave both at 0. -/
def irqBits (cmd : Nat) : Nat × Nat :=
  if cmd = CMD_MF_AUTHENT then (0x12, 0x10)
  else if cmd = CMD_TRANCEIVE then (0x77, 0x30)
  else (0, 0)

/-- Lines 137-146: `i = 20000; while True: n = rreg(COM_IRQ); i -= 1;`
break when `n & wait_irq`, `n & 0x01`, or `i == 0`.  `k` is the index of
the next poll read, the second argument the remaining budget before the
iteration.  Returns `(n, i, reads)`: the last value read, the final budget
and the total number of COM_IRQ reads performed.  The `0` budget case is
unreachable from the entry budget 20000 (the Python loop decrements before
comparing with 0, so it can only hit 0 from a positive budget). -/
def pollLoop (irq : Nat → Nat) (waitIrq : Nat) : Nat → Nat → Nat × Nat × Nat
  | k, 0 => (irq k, 0, k + 1)
  | k, i + 1 =>
    let n := irq k
    if n &&& waitIrq ≠ 0 then (n, i, k + 1)
    else if n &&& 1 ≠ 0 then (n, i, k + 1)
    else if i = 0 then (n, i, k + 1)
    else pollLoop irq waitIrq (k + 1) i

/-- `RFID._tocard` (lines 116-171) for one transaction environment.
The writes of lines 127-135 address the external chip and are dropped;
`send` is kept as an argument because the caller-side trace records it.
Returns `(stat, recv, bits)` exactly as the source does:
  * budget exhausted (`i == 0`) → `(ERR, [], 0)`;
  * error register masked by 0x1B nonzero → `(ERR, [], 0)`;
  * `n & irq_en & 0x01` → `(NOTAGERR, [], 0)`;
  * TRANCEIVE → drain: `n = rreg(FIFO_LEVEL)`, `lbits = rreg(CONTROL) & 7`,
    `bits = (n-1)*8+lbits` if `lbits != 0` else `n*8` (Python int, so it
    may be negative when `n = 0`), then `n` reclamped to `[1,16]` and that
    many FIFO bytes drained;
  * otherwise `(OK, [], 0)`. -/
def tocard (cmd : Nat) (send : List Nat) (env : TocardEnv) : Nat × List Nat × Int :=
  let irq_en := (irqBits cmd).1
  let wait_irq := (irqBits cmd).2
  let p := pollLoop env.irq wait_irq 0 20000
  let n := p.1
  let i := p.2.1
  if i ≠ 0 then
    if env.errorReg &&& 0x1B = 0 then
      if n &&& irq_en &&& 1 ≠ 0 then (NOTAGERR, [], 0)
      else if cmd = CMD_TRANCEIVE then
        let nl := env.fifoLevel
        let lbits := env.control &&& 0x07
        let bits : Int := if lbits ≠ 0 then ((nl : Int) - 1) * 8 + (lbits : Int) else (nl : Int) * 8
        let n2 := if nl = 0 then 1 else if nl > 16 then 16 else nl
        (OK, (List.range n2).map env.fifoData, bits)
      else (OK, [], 0)
    else (ERR, [], 0)
  else (ERR, [], 0)

/-- One `_tocard` call as seen from the protocol layer: consume the next
transaction environment, record the frame in the trace. -/
def runTocard (env : ChipEnv) (s : ChipState) (cmd : Nat) (send : List Nat) :
    (Nat × List Nat × Int) × ChipState :=
  (tocard cmd send (env.tocardEnvs s.tIdx),
   ⟨s.tIdx + 1, s.cIdx, s.trace ++ [(cmd, send)]⟩)

/-- `RFID._crc` (lines 174-190): pushes `data` through the chip CRC
co-processor and returns `[lsb, msb]`.  The source busy-polls DIV_IRQ for
up to 255 iterations but reads the two result registers unconditionally,
so the returned value is exactly the environment's result pair; the `data`
bytes go to the external chip. -/
def crc (env : CrcEnv) (data : List Nat) : List Nat :=
  (fun _ : List Nat => [env.crcLsb, env.crcMsb]) data

/-- `_TAG_CMD_REQIDL = 0x26` (line 51). -/
def TAG_CMD_REQIDL : Nat := 0x26

/-- `_TAG_CMD_ANTCOL1 = 0x93` (line 53). -/
def ANTCOL1 : Nat := 0x93

/-- `_TAG_CMD_ANTCOL2 = 0x95` (line 54). -/
def ANTCOL2 : Nat := 0x95

/-- `_TAG_CMD_ANTCOL3 = 0x97` (line 55). -/
def ANTCOL3 : Nat := 0x97

/-- `RFID._request` (lines 193-198): transceive the one-byte frame
`[mode]`; force ERR unless the outcome was OK with exactly 16 bits.
Returns `(stat, bits)` as the source does (the caller names `bits`
"ATQA"). -/
def request (env : ChipEnv) (s : ChipState) (mode : Nat) : (Nat × Int) × ChipState :=
  match runTocard env s CMD_TRANCEIVE [mode] with
  | ((stat, _recv, bits), s1) =>
    (((if stat ≠ OK ∨ bits ≠ 0x10 then ERR else stat), bits), s1)

/-- `RFID._anticoll` (lines 201-215): transceive `[anticolN, 0x20]`; on OK
require exactly 5 received bytes whose first four XOR to the fifth
(`ser_chk` is folded up exactly as the source's loop does); any violation
turns the status into ERR.  Returns the raw 5-byte fragment either way. -/
def anticoll (env : ChipEnv) (s : ChipState) (anticolN : Nat) : (Nat × List Nat) × ChipState :=
  match runTocard env s CMD_TRANCEIVE [anticolN, 0x20] with
  | ((stat, recv, _bits), s1) =>
    let statF :=
      if stat = OK then
        if recv.length = 5 then
          if (recv.take 4).foldl (· ^^^ ·) 0 ≠ recv.getD 4 0 then ERR else stat
        else ERR
      else stat
    ((statF, recv), s1)

/-- `RFID._selectTag` (lines 218-232): build `[anticolN, 0x70] ++ serNum`,
append the CRC pair from the co-processor, transceive with the literal
command byte 0x0C, and return 1 iff the status is OK with exactly 0x18
(24) received bits, else 0. -/
def selectTag (env : ChipEnv) (s : ChipState) (serNum : List Nat) (anticolN : Nat) :
    Nat × ChipState :=
  let buf := [anticolN, 0x70] ++ serNum
  let pOut := crc (env.crcEnvs s.cIdx) buf
  let s1 : ChipState := ⟨s.tIdx, s.cIdx + 1, s.trace⟩
  match runTocard env s1 0x0C (buf ++ pOut) with
  | ((status, _backData, backLen), s2) =>
    ((if status = OK ∧ backLen = 0x18 then 1 else 0), s2)

/-- Python `str.upper()` on the ASCII strings built here: uppercase every
character. -/
def strUpper (s : String) : String := ⟨s.data.map Char.toUpper⟩

/-- Python `hex(n)[2:]` for a nonnegative int: lowercase hexadecimal
digits, no leading zeros (`hex(0)[2:] = "0"`). -/
def hexStr (n : Nat) : String := String.mk (Nat.toDigits 16 n)

/-- Lines 262-267: the formatting loop of `_readTagID`, carried through
the accumulating string; `i` is the loop index (only `i > 0` is tested):
prepend ':' between bytes, left-pad bytes below 16 with '0', then append
the lowercase hex digits. -/
def formatIdAux : List Nat → Nat → String → String
  | [], _, acc => acc
  | b :: rest, i, acc =>
    let acc1 := if 0 < i then acc ++ ":" else acc
    let acc2 := if b < 16 then acc1 ++ "0" else acc1
    formatIdAux rest (i + 1) (acc2 ++ hexStr b)

/-- Lines 260-267 plus the `.upper()` applied at line 271. -/
def formatId (id : List Nat) : String := strUpper (formatIdAux id 0 "")

/-- The result dictionary of `_readTagID`/`readTagID` (line 236 / 271 /
306 / 308). -/
structure TagReadResult where
  success : Bool
  id_integers : List Nat
  id_formatted : String
  type : String
deriving DecidableEq

/-- Line 236: the failure dictionary `_readTagID` returns on any cascade
failure. -/
def emptyRead : TagReadResult := ⟨false, [], "", ""⟩

/-- Lines 259-271: `valid_uid.extend(uid[0:5])` has already been folded
into the argument; strip the trailing checksum byte
(`valid_uid[:len(valid_uid)-1]`), format, and classify: length 4 →
"classic", otherwise "ntag". -/
def finishUid (validUid : List Nat) : TagReadResult :=
  let id := validUid.take (validUid.length - 1)
  ⟨true, id, formatId id, if id.length = 4 then "classic" else "ntag"⟩

/-- Lines 254-258: after both the L1 and the L2 fragment carried the 0x88
cascade tag, run the L3 anticollision.  The source performs no select at
L3: a valid L3 fragment goes straight to the common
`valid_uid.extend(uid[0:5])` fall-through. -/
def readTagCascadeL3 (env : ChipEnv) (s : ChipState) (validUid : List Nat) :
    TagReadResult × ChipState :=
  match anticoll env s ANTCOL3 with
  | ((status, uid), s1) =>
    if status ≠ OK then (emptyRead, s1)
    else (finishUid (validUid ++ uid.take 5), s1)

/-- Lines 246-258: the L2 anticollision/select after the L1 fragment
carried the 0x88 cascade tag; escalate to L3 only when the L2 fragment
also starts with 0x88 (`uid[1:4]` is `(uid.drop 1).take 3`). -/
def readTagCascadeL2 (env : ChipEnv) (s : ChipState) (validUid : List Nat) :
    TagReadResult × ChipState :=
  match anticoll env s ANTCOL2 with
  | ((status, uid), s1) =>
    if status ≠ OK then (emptyRead, s1)
    else
      match selectTag env s1 uid ANTCOL2 with
      | (rtn, s2) =>
        if rtn = 0 then (emptyRead, s2)
        else if uid.headD 0 = 0x88 then
          readTagCascadeL3 env s2 (validUid ++ (uid.drop 1).take 3)
        else (finishUid (validUid ++ uid.take 5), s2)

/-- `RFID._readTagID` (lines 235-271): the full cascade.  `uid[0]` is
`headD 0` (the fragment always has length 5 when the anticollision
reported OK, see `anticoll_ok_length`). -/
def readTagIDInner (env : ChipEnv) (s : ChipState) : TagReadResult × ChipState :=
  match anticoll env s ANTCOL1 with
  | ((status, uid), s1) =>
    if status ≠ OK then (emptyRead, s1)
    else
      match selectTag env s1 uid ANTCOL1 with
      | (rtn, s2) =>
        if rtn = 0 then (emptyRead, s2)
        else if uid.headD 0 = 0x88 then
          readTagCascadeL2 env s2 ((uid.drop 1).take 3)
        else (finishUid (uid.take 5), s2)

/-- The dictionary returned by `_detectTag` (line 280). -/
structure DetectResult where
  present : Bool
  atqa : Int
deriving DecidableEq

/-- `RFID._detectTag` (lines 274-280): present iff `_request` reported
OK. -/
def detectTag (env : ChipEnv) (s : ChipState) : DetectResult × ChipState :=
  match request env s TAG_CMD_REQIDL with
  | ((stat, atqa), s1) => (⟨if stat = OK then true else false, atqa⟩, s1)

/-- Line 308: the failure dictionary of the public `readTagID`, with the
one-element sentinel `[0]` as `id_integers`. -/
def failRead : TagReadResult := ⟨false, [0], "", ""⟩

/-- `RFID.readTagID` (lines 298-308): detect, retry the detection exactly
once if absent, then run the cascade; any failure (no tag after the
retry, or an unsuccessful cascade) yields `failRead`. -/
def readTagID (env : ChipEnv) (s : ChipState) : TagReadResult × ChipState :=
  match detectTag env s with
  | (d1, s1) =>
    match (if d1.present = false then detectTag env s1 else (d1, s1)) with
    | (d2, s2) =>
      if d2.present then
        match readTagIDInner env s2 with
        | (r, s3) => if r.success then (r, s3) else (failRead, s3)
      else (failRead, s2)

/-- `RFID.tagPresent` (lines 318-320): the success flag of a full
`readTagID`. -/
def tagPresent (env : ChipEnv) (s : ChipState) : Bool × ChipState :=
  match readTagID env s with
  | (r, s1) => (r.success, s1)

/-- `_REG_TX_CONTROL = 0x14` (line 34). -/
def REG_TX_CONTROL : Nat := 0x14

/-- Register-file model for the antenna toggles, which genuinely
read-modify-write TX_CONTROL: `_wreg` over a register file. -/
def wregFile (regs : Nat → Nat) (r v : Nat) : Nat → Nat :=
  fun x => if x = r then v else regs x

/-- `_sflags` (lines 107-109) over a register file. -/
def sflagsFile (regs : Nat → Nat) (r mask : Nat) : Nat → Nat :=
  wregFile regs r (regs r ||| mask)

/-- Python `~n` on a nonnegative int: `-(n + 1)`. -/
def pyInvert (n : Nat) : Int := -((n : Int) + 1)

/-- Python `x & ~mask` on nonnegative ints: clear the mask bits. -/
def pyAndNot (x mask : Nat) : Nat := x ^^^ (x &&& mask)

/-- `_cflags` (lines 112-113) over a register file. -/
def cflagsFile (regs : Nat → Nat) (r mask : Nat) : Nat → Nat :=
  wregFile regs r (pyAndNot (regs r) mask)

/-- `antennaOn` (lines 287-289): `if ~(rreg(TX_CONTROL) & 0x03):` then
`sflags(TX_CONTROL, 0x83)`.  Python truthiness of the int `~v` is
`~v != 0`. -/
def antennaOn (regs : Nat → Nat) : Nat → Nat :=
  if pyInvert (regs REG_TX_CONTROL &&& 0x03) ≠ 0 then sflagsFile regs REG_TX_CONTROL 0x83
  else regs

/-- `antennaOff` (lines 292-294): `if not (~(rreg(TX_CONTROL) & 0x03)):`
then `cflags(TX_CONTROL, ...)` with the mask written as a one-byte bytes
literal of value 3 in the source; the (never-taken) branch is modelled
with the numeric mask 3. -/
def antennaOff (regs : Nat → Nat) : Nat → Nat :=
  if ¬ pyInvert (regs REG_TX_CONTROL &&& 0x03) ≠ 0 then cflagsFile regs REG_TX_CONTROL 0x03
  else regs

/-!
Spec-side definitions, written from the specification's words, used in
refinement-style comparisons with the code-side functions above:
the "colon-separated uppercase two-digit hex rendering" of a UID, and
"splitting the formatted string on a colon and hex-decoding each piece".
-/

/-- Spec-side: one uppercase hexadecimal digit character. -/
def upDigit (n : Nat) : Char :=
  if n < 10 then Char.ofNat (48 + n) else Char.ofNat (55 + n)

/-- Spec-side: the two-digit uppercase rendering of a byte. -/
def hexPair (b : Nat) : List Char := [upDigit (b / 16), upDigit (b % 16)]

/-- Spec-side: join character chunks with colons between them. -/
def joinCols : List (List Char) → List Char
  | [] => []
  | [c] => c
  | c :: cs => c ++ ':' :: joinCols cs

/-- Spec-side: the colon-separated uppercase two-digit hex rendering of a
byte sequence. -/
def specFormat (uid : List Nat) : String := ⟨joinCols (uid.map hexPair)⟩

/-- Spec-side: split a character list on the colon separator. -/
def splitCols : List Char → List (List Char)
  | [] => [[]]
  | c :: cs =>
    if c = ':' then [] :: splitCols cs
    else
      match splitCols cs with
      | [] => [[c]]
      | p :: ps => (c :: p) :: ps

/-- Spec-side: the numeric value of one hex digit character. -/
def hexVal (c : Char) : Nat :=
  if c.toNat ≥ 48 ∧ c.toNat ≤ 57 then c.toNat - 48
  else if c.toNat ≥ 97 ∧ c.toNat ≤ 102 then c.toNat - 87
  else if c.toNat ≥ 65 ∧ c.toNat ≤ 70 then c.toNat - 55
  else 0

/-- Spec-side: hex-decode one piece of the split string. -/
def hexDecode (cs : List Char) : Nat :=
  cs.foldl (fun a c => 16 * a + hexVal c) 0

/-!
Analysis helpers for the formatting loop: the chunk of characters the
loop of lines 262-267 appends for one byte, before and after the final
upper-casing of line 271.
-/

/-- The hex chunk the formatting loop appends for one byte: the optional
left pad plus the lowercase digits. -/
def byteChunk (b : Nat) : List Char :=
  (if b < 16 then ['0'] else []) ++ Nat.toDigits 16 b

/-- What the loop appends for every byte once the loop index is
positive: a colon followed by the byte's chunk. -/
def colonChunks (l : List Nat) : List Char :=
  (l.map (fun b => ':' :: byteChunk b)).flatten

/-- `upChunk b` is what the final formatted string contains for byte `b`
after the upper-casing. -/
def upChunk (b : Nat) : List Char := (byteChunk b).map Char.toUpper

/-!
Concrete chip environments used as witnesses and counterexamples.
-/

/-- A transceive transaction that immediately reports the wait bit, no
chip error, and a 3-byte response (24 bits): a successful SELECT
acknowledgment. -/
def selEnv : TocardEnv :=
  { irq := fun _ => 0x30, errorReg := 0, fifoLevel := 3, control := 0, fifoData := fun _ => 0 }

/-- A transceive transaction that immediately succeeds with the 5-byte
response `f` (40 bits): an anticollision reply. -/
def fragEnv (f : List Nat) : TocardEnv :=
  { irq := fun _ => 0x30, errorReg := 0, fifoLevel := 5, control := 0,
    fifoData := fun k => f.getD k 0 }

/-- A transceive transaction that immediately succeeds with a 2-byte
response (16 bits): an ATQA reply to REQA. -/
def reqEnv : TocardEnv :=
  { irq := fun _ => 0x30, errorReg := 0, fifoLevel := 2, control := 0, fifoData := fun _ => 0 }

/-- A transceive transaction answering 5 bytes `[1,1,1,1,1]`, whose
first four bytes XOR to 0, not to the fifth byte 1: a checksum
mismatch. -/
def badFrag : TocardEnv :=
  { irq := fun _ => 0x30, errorReg := 0, fifoLevel := 5, control := 0, fifoData := fun _ => 1 }

/-- A transceive transaction reporting FIFO fill level 20, above the
16-byte clamp. -/
def bigFifoEnv : TocardEnv :=
  { irq := fun _ => 0x30, errorReg := 0, fifoLevel := 20, control := 0, fifoData := fun _ => 0 }

/-- A chip whose interrupt-request register never shows any bit. -/
def zeroEnv : TocardEnv :=
  { irq := fun _ => 0, errorReg := 0, fifoLevel := 0, control := 0, fifoData := fun _ => 0 }

/-- CRC co-processor result fixed at `[0, 0]`. -/
def crc0 : CrcEnv := ⟨0, 0⟩

/-- Scenario-B-style environment: L1 anticollision answers
`[0x88, b1, b2, b3, chk]`, L1 select succeeds with 24 bits, L2
anticollision answers `[c1, c2, c3, c4, chk]`, L2 select succeeds. -/
def envB (b1 b2 b3 c1 c2 c3 c4 : Nat) : ChipEnv :=
  { tocardEnvs := fun i =>
      if i = 0 then fragEnv [0x88, b1, b2, b3, 0x88 ^^^ b1 ^^^ b2 ^^^ b3]
      else if i = 1 then selEnv
      else if i = 2 then fragEnv [c1, c2, c3, c4, c1 ^^^ c2 ^^^ c3 ^^^ c4]
      else selEnv,
    crcEnvs := fun _ => crc0 }

/-- Three-level environment: both the L1 and the L2 fragment carry the
0x88 cascade tag, and the L3 anticollision answers `[7, 8, 9, 10, 12]`. -/
def envL3 : ChipEnv :=
  { tocardEnvs := fun i =>
      if i = 0 then fragEnv [0x88, 1, 2, 3, 0x88 ^^^ 1 ^^^ 2 ^^^ 3]
      else if i = 1 then selEnv
      else if i = 2 then fragEnv [0x88, 4, 5, 6, 0x88 ^^^ 4 ^^^ 5 ^^^ 6]
      else if i = 3 then selEnv
      else fragEnv [7, 8, 9, 10, 7 ^^^ 8 ^^^ 9 ^^^ 10],
    crcEnvs := fun _ => crc0 }

/-- Single-level ("classic") environment: the L1 fragment does not carry
the cascade tag. -/
def envClassic : ChipEnv :=
  { tocardEnvs := fun i => if i = 0 then fragEnv [1, 2, 3, 4, 1 ^^^ 2 ^^^ 3 ^^^ 4] else selEnv,
    crcEnvs := fun _ => crc0 }

/-- Scenario-C-style environment: REQA answered (tag present), then the
L1 anticollision returns a checksum mismatch. -/
def envScenC : ChipEnv :=
  { tocardEnvs := fun i => if i = 0 then reqEnv else badFrag,
    crcEnvs := fun _ => crc0 }

/-- Environment whose every anticollision response is the checksum
mismatch `[1,1,1,1,1]`. -/
def envBad : ChipEnv :=
  { tocardEnvs := fun _ => badFrag, crcEnvs := fun _ => crc0 }

/-!
Helper lemmas.
-/

theorem data_append (s t : String) : (s ++ t).data = s.data ++ t.data := rfl

theorem formatIdAux_pos (l : List Nat) : ∀ (i : Nat) (acc : String),
    (formatIdAux l (i + 1) acc).data = acc.data ++ colonChunks l := by
  induction l with
  | nil => intro i acc; simp [formatIdAux, colonChunks]
  | cons b rest ih =>
    intro i acc
    simp only [formatIdAux, colonChunks, List.map_cons, List.flatten_cons]
    rw [ih]
    by_cases hb : b < 16 <;>
      simp [hb, data_append, hexStr, byteChunk, colonChunks]

theorem formatId_data (b : Nat) (rest : List Nat) :
    (formatId (b :: rest)).data =
      (byteChunk b ++ colonChunks rest).map Char.toUpper := by
  simp only [formatId, strUpper, formatIdAux]
  rw [show formatIdAux rest 1 = formatIdAux rest (0 + 1) from rfl, formatIdAux_pos]
  by_cases hb : b < 16 <;> simp [hb, data_append, hexStr, byteChunk]

theorem split_noColon : ∀ c : List Char, (∀ ch ∈ c, ch ≠ ':') → splitCols c = [c] := by
  intro c
  induction c with
  | nil => intro _; rfl
  | cons ch cs ih =>
    intro h
    have hch : ch ≠ ':' := h ch (by simp)
    simp only [splitCols, if_neg hch]
    rw [ih (fun x hx => h x (by simp [hx]))]

theorem split_append : ∀ (c r : List Char), (∀ ch ∈ c, ch ≠ ':') →
    splitCols (c ++ ':' :: r) = c :: splitCols r := by
  intro c
  induction c with
  | nil => intro r _; simp [splitCols]
  | cons ch cs ih =>
    intro r h
    have hch : ch ≠ ':' := h ch (by simp)
    simp only [List.cons_append, splitCols, if_neg hch, List.append_eq]
    rw [ih r (fun x hx => h x (by simp [hx]))]

set_option maxRecDepth 8000 in
/-- Per-byte facts, by finite check over all bytes: the uppercased chunk
the code emits for a byte is the spec's two-digit pair, contains no
colon, and hex-decodes back to the byte. -/
theorem upChunk_facts : ∀ b : Nat, b < 256 →
    upChunk b = hexPair b ∧
    (∀ ch ∈ upChunk b, ch ≠ ':') ∧
    hexDecode (upChunk b) = b := by decide

theorem joinCols_cons (x : List Char) (xs : List (List Char)) :
    joinCols (x :: xs) = x ++ (xs.map (fun c => ':' :: c)).flatten := by
  induction xs generalizing x with
  | nil => simp [joinCols]
  | cons y ys ih => simp only [joinCols, ih y, List.map_cons, List.flatten_cons]; simp

theorem formatId_eq_specFormat (l : List Nat) (h : ∀ b ∈ l, b < 256) :
    formatId l = specFormat l := by
  cases l with
  | nil => rfl
  | cons b rest =>
    have hdata : (formatId (b :: rest)).data = joinCols ((b :: rest).map hexPair) := by
      rw [formatId_data, List.map_cons, joinCols_cons, List.map_append]
      rw [show (byteChunk b).map Char.toUpper = upChunk b from rfl,
          (upChunk_facts b (h b (by simp))).1]
      congr 1
      rw [colonChunks, List.map_flatten, List.map_map, List.map_map]
      congr 1
      refine List.map_congr_left ?_
      intro c hc
      have hfc := (upChunk_facts c (h c (by simp [hc]))).1
      simp only [Function.comp]
      rw [show List.map Char.toUpper (':' :: byteChunk c) = ':' :: upChunk c from rfl, hfc]
    have h2 : formatId (b :: rest) = String.mk (joinCols ((b :: rest).map hexPair)) := by
      rw [← hdata]
    rw [h2]; rfl

theorem splitCols_chunks (b : Nat) (rest : List Nat)
    (hb : b < 256) (h : ∀ c ∈ rest, c < 256) :
    splitCols (upChunk b ++ (rest.map (fun c => ':' :: upChunk c)).flatten) =
      upChunk b :: rest.map upChunk := by
  induction rest generalizing b with
  | nil =>
    simpa using split_noColon (upChunk b) (upChunk_facts b hb).2.1
  | cons c rest2 ih =>
    simp only [List.map_cons, List.flatten_cons]
    rw [show (':' :: upChunk c) ++ (rest2.map (fun x => ':' :: upChunk x)).flatten =
          ':' :: (upChunk c ++ (rest2.map (fun x => ':' :: upChunk x)).flatten) from rfl]
    rw [split_append _ _ (upChunk_facts b hb).2.1]
    rw [ih c (h c (by simp)) (fun x hx => h x (by simp [hx]))]

/-- Splitting the formatted string on colons and hex-decoding each piece
recovers the byte list, for any nonempty list of bytes. -/
theorem roundTrip (l : List Nat) (h : ∀ b ∈ l, b < 256) (hne : l ≠ []) :
    (splitCols ((formatId l).data)).map hexDecode = l := by
  cases l with
  | nil => exact absurd rfl hne
  | cons b rest =>
    rw [formatId_data, List.map_append]
    rw [show (byteChunk b).map Char.toUpper = upChunk b from rfl]
    have hcc : (colonChunks rest).map Char.toUpper =
        (rest.map (fun c => ':' :: upChunk c)).flatten := by
      have hcol : Char.toUpper ':' = ':' := by decide
      simp only [colonChunks, List.map_flatten, List.map_map]
      refine congrArg List.flatten (List.map_congr_left ?_)
      intro c _
      simp [Function.comp, upChunk, hcol]
    rw [hcc, splitCols_chunks b rest (h b (by simp)) (fun x hx => h x (by simp [hx]))]
    rw [List.map_cons, List.map_map, (upChunk_facts b (h b (by simp))).2.2]
    congr 1
    refine (List.map_congr_left ?_).trans (List.map_id rest)
    intro c hc
    exact (upChunk_facts c (h c (by simp [hc]))).2.2

/-- When `_anticoll` reports OK, the fragment has exactly 5 bytes. -/
theorem anticoll_ok_length (env : ChipEnv) (s : ChipState) (a : Nat)
    (h : (anticoll env s a).1.1 = OK) : (anticoll env s a).1.2.length = 5 := by
  simp only [anticoll, runTocard] at h ⊢
  split at h
  · split at h
    · assumption
    · exact absurd h (by decide)
  · contradiction

theorem cascadeL3_fail (env : ChipEnv) (s : ChipState) (v : List Nat)
    (h : (readTagCascadeL3 env s v).1.success = false) :
    (readTagCascadeL3 env s v).1 = emptyRead := by
  simp only [readTagCascadeL3] at h ⊢
  split
  · rfl
  · rename_i hc
    rw [if_neg hc] at h
    exact absurd h (by simp [finishUid])

theorem cascadeL2_fail (env : ChipEnv) (s : ChipState) (v : List Nat)
    (h : (readTagCascadeL2 env s v).1.success = false) :
    (readTagCascadeL2 env s v).1 = emptyRead := by
  simp only [readTagCascadeL2] at h ⊢
  split
  · rfl
  · rename_i hc
    rw [if_neg hc] at h
    split
    · rfl
    · rename_i hr
      rw [if_neg hr] at h
      split
      · rename_i hm
        rw [if_pos hm] at h
        exact cascadeL3_fail _ _ _ h
      · rename_i hm
        rw [if_neg hm] at h
        exact absurd h (by simp [finishUid])

/-- On any cascade failure `_readTagID` returns the empty result. -/
theorem inner_fail (env : ChipEnv) (s : ChipState)
    (h : (readTagIDInner env s).1.success = false) :
    (readTagIDInner env s).1 = emptyRead := by
  simp only [readTagIDInner] at h ⊢
  split
  · rfl
  · rename_i hc
    rw [if_neg hc] at h
    split
    · rfl
    · rename_i hr
      rw [if_neg hr] at h
      split
      · rename_i hm
        rw [if_pos hm] at h
        exact cascadeL2_fail _ _ _ h
      · rename_i hm
        rw [if_neg hm] at h
        exact absurd h (by simp [finishUid])

/-- On any failure the public `readTagID` returns the `[0]` sentinel
result. -/
theorem outer_fail (env : ChipEnv) (s : ChipState)
    (h : (readTagID env s).1.success = false) :
    (readTagID env s).1 = failRead := by
  rcases hd1 : detectTag env s with ⟨d1, s1⟩
  rcases hd2 : (if d1.present = false then detectTag env s1 else (d1, s1)) with ⟨d2, s2⟩
  rcases hr : readTagIDInner env s2 with ⟨r, s3⟩
  simp only [readTagID, hd1, hd2, hr] at h ⊢
  by_cases hp : d2.present = true
  · by_cases hs : r.success = true
    · simp only [hp, hs, if_true] at h ⊢
      exact absurd h (by simp)
    · simp only [Bool.not_eq_true] at hs
      simp [hp, hs]
  · simp only [Bool.not_eq_true] at hp
    simp [hp]

/-- One unfolding step of the poll loop with positive budget. -/
theorem pollLoop_succ (irq : Nat → Nat) (w k i : Nat) :
    pollLoop irq w k (i + 1) =
      if irq k &&& w ≠ 0 then (irq k, i, k + 1)
      else if irq k &&& 1 ≠ 0 then (irq k, i, k + 1)
      else if i = 0 then (irq k, i, k + 1)
      else pollLoop irq w (k + 1) i := rfl

/-- Starting at read index `k` with budget `i + 1`, the loop performs at
most `i + 1` further reads. -/
theorem pollLoop_reads_le (irq : Nat → Nat) (w : Nat) :
    ∀ (i k : Nat), (pollLoop irq w k (i + 1)).2.2 ≤ k + i + 1 := by
  intro i
  induction i with
  | zero =>
    intro k
    rw [pollLoop_succ]
    split
    · simp
    · split
      · simp
      · simp
  | succ i ih =>
    intro k
    rw [pollLoop_succ]
    split
    · simp
    · split
      · simp
      · split
        · simp
        · exact le_trans (ih (k + 1)) (by omega)

/-- If no observed value ever shows the wait bit or the timer bit, the
loop runs its whole budget down and ends with budget 0. -/
theorem pollLoop_exhaust (irq : Nat → Nat) (w : Nat) :
    ∀ (i k : Nat), (∀ j, k ≤ j → j ≤ k + i → irq j &&& w = 0 ∧ irq j &&& 1 = 0) →
      pollLoop irq w k (i + 1) = (irq (k + i), 0, k + i + 1) := by
  intro i
  induction i with
  | zero =>
    intro k hj
    have h0 := hj k le_rfl (by omega)
    rw [pollLoop_succ]
    simp [h0.1, h0.2]
  | succ i ih =>
    intro k hj
    have h0 := hj k le_rfl (by omega)
    rw [pollLoop_succ]
    rw [if_neg (by simp [h0.1]), if_neg (by simp [h0.2]), if_neg (by omega)]
    rw [ih (k + 1) (fun j h1 h2 => hj j (by omega) (by omega))]
    have e1 : k + 1 + i = k + (i + 1) := by omega
    rw [e1]

/-!
Claim theorems.
-/

/-- C1: if the L1 anticollision returns the 5-byte fragment
`[0x88, b1, b2, b3, k1]` with valid checksum (that is, `_anticoll`
reports OK) and the L1 select succeeds with 24 bits (`_selectTag`
returns 1), and the L2 anticollision returns `[c1, c2, c3, c4, k2]`
(valid checksum, first byte not 0x88) and the L2 select succeeds, then
`_readTagID` returns success, the 7-byte UID
`[b1, b2, b3, c1, c2, c3, c4]` with the per-level checksum bytes
stripped, kind "ntag", and the colon-separated uppercase two-digit hex
rendering of those bytes. -/
theorem c1_ntag_cascade (env : ChipEnv) (s s1 s2 s3 s4 : ChipState)
    (b1 b2 b3 k1 c1 c2 c3 c4 k2 : Nat)
    (hb1 : b1 < 256) (hb2 : b2 < 256) (hb3 : b3 < 256)
    (hc1 : c1 < 256) (hc2 : c2 < 256) (hc3 : c3 < 256) (hc4 : c4 < 256)
    (hne : c1 ≠ 0x88)
    (hA1 : anticoll env s ANTCOL1 = ((OK, [0x88, b1, b2, b3, k1]), s1))
    (hS1 : selectTag env s1 [0x88, b1, b2, b3, k1] ANTCOL1 = (1, s2))
    (hA2 : anticoll env s2 ANTCOL2 = ((OK, [c1, c2, c3, c4, k2]), s3))
    (hS2 : selectTag env s3 [c1, c2, c3, c4, k2] ANTCOL2 = (1, s4)) :
    readTagIDInner env s =
      (⟨true, [b1, b2, b3, c1, c2, c3, c4],
        specFormat [b1, b2, b3, c1, c2, c3, c4], "ntag"⟩, s4) := by
  have hfmt : formatId [b1, b2, b3, c1, c2, c3, c4] =
      specFormat [b1, b2, b3, c1, c2, c3, c4] := by
    refine formatId_eq_specFormat _ ?_
    intro b hb
    simp only [List.mem_cons, List.not_mem_nil] at hb
    rcases hb with h | h | h | h | h | h | h | h <;>
      first | (subst h; assumption) | exact absurd h (by simp)
  simp [readTagIDInner, readTagCascadeL2, hA1, hS1, hA2, hS2, hne, finishUid, hfmt]

/-- Witness for C1 at the Scenario B input: fragments
`[0x88, 0x04, 0x12, 0x34, 0xAA]` and `[1, 2, 3, 4, 4]`. -/
theorem c1_witness :
    (anticoll (envB 4 18 52 1 2 3 4) s0 ANTCOL1 =
      ((OK, [0x88, 4, 18, 52, 170]), ⟨1, 0, [(12, [147, 32])]⟩)) ∧
    (selectTag (envB 4 18 52 1 2 3 4) ⟨1, 0, [(12, [147, 32])]⟩
      [0x88, 4, 18, 52, 170] ANTCOL1 =
      (1, ⟨2, 1, [(12, [147, 32]), (12, [147, 112, 136, 4, 18, 52, 170, 0, 0])]⟩)) ∧
    (anticoll (envB 4 18 52 1 2 3 4)
      ⟨2, 1, [(12, [147, 32]), (12, [147, 112, 136, 4, 18, 52, 170, 0, 0])]⟩ ANTCOL2 =
      ((OK, [1, 2, 3, 4, 4]),
       ⟨3, 1, [(12, [147, 32]), (12, [147, 112, 136, 4, 18, 52, 170, 0, 0]),
               (12, [149, 32])]⟩)) ∧
    (selectTag (envB 4 18 52 1 2 3 4)
      ⟨3, 1, [(12, [147, 32]), (12, [147, 112, 136, 4, 18, 52, 170, 0, 0]),
              (12, [149, 32])]⟩ [1, 2, 3, 4, 4] ANTCOL2 =
      (1, ⟨4, 2, [(12, [147, 32]), (12, [147, 112, 136, 4, 18, 52, 170, 0, 0]),
                  (12, [149, 32]), (12, [149, 112, 1, 2, 3, 4, 4, 0, 0])]⟩)) ∧
    readTagIDInner (envB 4 18 52 1 2 3 4) s0 =
      (⟨true, [4, 18, 52, 1, 2, 3, 4], specFormat [4, 18, 52, 1, 2, 3, 4], "ntag"⟩,
       ⟨4, 2, [(12, [147, 32]), (12, [147, 112, 136, 4, 18, 52, 170, 0, 0]),
               (12, [149, 32]), (12, [149, 112, 1, 2, 3, 4, 4, 0, 0])]⟩) :=
  ⟨by decide, by decide, by decide, by decide,
   c1_ntag_cascade (envB 4 18 52 1 2 3 4) s0
     ⟨1, 0, [(12, [147, 32])]⟩
     ⟨2, 1, [(12, [147, 32]), (12, [147, 112, 136, 4, 18, 52, 170, 0, 0])]⟩
     ⟨3, 1, [(12, [147, 32]), (12, [147, 112, 136, 4, 18, 52, 170, 0, 0]),
             (12, [149, 32])]⟩
     ⟨4, 2, [(12, [147, 32]), (12, [147, 112, 136, 4, 18, 52, 170, 0, 0]),
             (12, [149, 32]), (12, [149, 112, 1, 2, 3, 4, 4, 0, 0])]⟩
     4 18 52 170 1 2 3 4 4
     (by decide) (by decide) (by decide) (by decide) (by decide) (by decide) (by decide)
     (by decide) (by decide) (by decide) (by decide) (by decide)⟩

/-- C2 counterexample: in the Scenario C environment (tag present, L1
anticollision checksum mismatch), the identification `readTagID`
returns success=false, but its UID list is the one-element sentinel
`[0]`, not the empty list the claim states. -/
theorem c2_counterexample :
    (anticoll envScenC ⟨1, 0, []⟩ ANTCOL1).1.1 = ERR ∧
    (readTagID envScenC s0).1.success = false ∧
    (readTagID envScenC s0).1.id_integers = [0] ∧
    (readTagID envScenC s0).1.id_integers ≠ [] := by decide

/-- C2 (amended): on every cascade failure the inner `_readTagID`
returns success=false with the empty UID, while the public `readTagID`
maps every failure to success=false with the one-element sentinel UID
`[0]`. -/
theorem c2_amended_failure_uid (env : ChipEnv) (s : ChipState) :
    ((readTagIDInner env s).1.success = false → (readTagIDInner env s).1 = emptyRead) ∧
    ((readTagID env s).1.success = false → (readTagID env s).1 = failRead) :=
  ⟨inner_fail env s, outer_fail env s⟩

/-- Witness for C2 (amended) at the Scenario C environment. -/
theorem c2_witness :
    (readTagIDInner envScenC ⟨1, 0, []⟩).1.success = false ∧
    (readTagIDInner envScenC ⟨1, 0, []⟩).1 = emptyRead ∧
    (readTagID envScenC s0).1.success = false ∧
    (readTagID envScenC s0).1 = failRead :=
  ⟨by decide, (c2_amended_failure_uid envScenC ⟨1, 0, []⟩).1 (by decide),
   by decide, (c2_amended_failure_uid envScenC s0).2 (by decide)⟩

/-- C3 counterexample: in a concrete environment in which both the L1
and the L2 fragment begin with the cascade-tag marker 0x88 (so the
cascade escalates to level 3, visible as the `[0x97, 0x20]` frame in
the trace), identification succeeds even though no L3 select frame
`[0x97, 0x70, ...]` was ever sent: the L3 select the claim requires
does not exist in the code. -/
theorem c3_counterexample :
    (readTagIDInner envL3 s0).1.success = true ∧
    (readTagIDInner envL3 s0).1.id_integers = [1, 2, 3, 4, 5, 6, 7, 8, 9, 10] ∧
    ((readTagIDInner envL3 s0).2.trace.map (fun t => t.2.take 2)) =
      [[0x93, 0x20], [0x93, 0x70], [0x95, 0x20], [0x95, 0x70], [0x97, 0x20]] ∧
    (∀ t ∈ (readTagIDInner envL3 s0).2.trace, t.2.take 2 ≠ [0x97, 0x70]) := by decide

/-- C3 (amended): when the cascade escalates to level 3 (both the L1
and the L2 fragment begin with 0x88), only the L3 anticollision is
performed — there is no L3 select — and identification succeeds as soon
as that L3 anticollision reports OK, ending in the state `s5` reached
by the L3 anticollision itself. -/
theorem c3_amended_no_select_l3 (env : ChipEnv) (s s1 s2 s3 s4 s5 : ChipState)
    (b1 b2 b3 k1 c1 c2 c3 k2 d1 d2 d3 d4 k3 : Nat)
    (hA1 : anticoll env s ANTCOL1 = ((OK, [0x88, b1, b2, b3, k1]), s1))
    (hS1 : selectTag env s1 [0x88, b1, b2, b3, k1] ANTCOL1 = (1, s2))
    (hA2 : anticoll env s2 ANTCOL2 = ((OK, [0x88, c1, c2, c3, k2]), s3))
    (hS2 : selectTag env s3 [0x88, c1, c2, c3, k2] ANTCOL2 = (1, s4))
    (hA3 : anticoll env s4 ANTCOL3 = ((OK, [d1, d2, d3, d4, k3]), s5)) :
    readTagIDInner env s =
      (⟨true, [b1, b2, b3, c1, c2, c3, d1, d2, d3, d4],
        formatId [b1, b2, b3, c1, c2, c3, d1, d2, d3, d4], "ntag"⟩, s5) := by
  simp [readTagIDInner, readTagCascadeL2, readTagCascadeL3,
    hA1, hS1, hA2, hS2, hA3, finishUid]

/-- Witness for C3 (amended) at the concrete three-level environment. -/
theorem c3_witness :
    (anticoll envL3 s0 ANTCOL1 =
      ((OK, [0x88, 1, 2, 3, 136]), ⟨1, 0, [(12, [147, 32])]⟩)) ∧
    (selectTag envL3 ⟨1, 0, [(12, [147, 32])]⟩ [0x88, 1, 2, 3, 136] ANTCOL1 =
      (1, ⟨2, 1, [(12, [147, 32]), (12, [147, 112, 136, 1, 2, 3, 136, 0, 0])]⟩)) ∧
    (anticoll envL3 ⟨2, 1, [(12, [147, 32]), (12, [147, 112, 136, 1, 2, 3, 136, 0, 0])]⟩
      ANTCOL2 =
      ((OK, [0x88, 4, 5, 6, 143]),
       ⟨3, 1, [(12, [147, 32]), (12, [147, 112, 136, 1, 2, 3, 136, 0, 0]),
               (12, [149, 32])]⟩)) ∧
    (selectTag envL3
      ⟨3, 1, [(12, [147, 32]), (12, [147, 112, 136, 1, 2, 3, 136, 0, 0]),
              (12, [149, 32])]⟩ [0x88, 4, 5, 6, 143] ANTCOL2 =
      (1, ⟨4, 2, [(12, [147, 32]), (12, [147, 112, 136, 1, 2, 3, 136, 0, 0]),
                  (12, [149, 32]), (12, [149, 112, 136, 4, 5, 6, 143, 0, 0])]⟩)) ∧
    (anticoll envL3
      ⟨4, 2, [(12, [147, 32]), (12, [147, 112, 136, 1, 2, 3, 136, 0, 0]),
              (12, [149, 32]), (12, [149, 112, 136, 4, 5, 6, 143, 0, 0])]⟩ ANTCOL3 =
      ((OK, [7, 8, 9, 10, 12]),
       ⟨5, 2, [(12, [147, 32]), (12, [147, 112, 136, 1, 2, 3, 136, 0, 0]),
               (12, [149, 32]), (12, [149, 112, 136, 4, 5, 6, 143, 0, 0]),
               (12, [151, 32])]⟩)) ∧
    readTagIDInner envL3 s0 =
      (⟨true, [1, 2, 3, 4, 5, 6, 7, 8, 9, 10],
        formatId [1, 2, 3, 4, 5, 6, 7, 8, 9, 10], "ntag"⟩,
       ⟨5, 2, [(12, [147, 32]), (12, [147, 112, 136, 1, 2, 3, 136, 0, 0]),
               (12, [149, 32]), (12, [149, 112, 136, 4, 5, 6, 143, 0, 0]),
               (12, [151, 32])]⟩) :=
  ⟨by decide, by decide, by decide, by decide, by decide,
   c3_amended_no_select_l3 envL3 s0
     ⟨1, 0, [(12, [147, 32])]⟩
     ⟨2, 1, [(12, [147, 32]), (12, [147, 112, 136, 1, 2, 3, 136, 0, 0])]⟩
     ⟨3, 1, [(12, [147, 32]), (12, [147, 112, 136, 1, 2, 3, 136, 0, 0]),
             (12, [149, 32])]⟩
     ⟨4, 2, [(12, [147, 32]), (12, [147, 112, 136, 1, 2, 3, 136, 0, 0]),
             (12, [149, 32]), (12, [149, 112, 136, 4, 5, 6, 143, 0, 0])]⟩
     ⟨5, 2, [(12, [147, 32]), (12, [147, 112, 136, 1, 2, 3, 136, 0, 0]),
             (12, [149, 32]), (12, [149, 112, 136, 4, 5, 6, 143, 0, 0]),
             (12, [151, 32])]⟩
     1 2 3 136 4 5 6 143 7 8 9 10 12
     (by decide) (by decide) (by decide) (by decide) (by decide)⟩

/-- C4 counterexample: when the FIFO fill level read from the chip is
20, the byte count is clamped to 16 but the bit count is computed from
the unclamped level, so `_tocard` reports 160 bits for a 16-byte
response: the claimed invariant `bits ≤ 8 × len(recv)` fails. -/
theorem c4_counterexample :
    (tocard CMD_TRANCEIVE [ANTCOL1, 0x20] bigFifoEnv).1 = OK ∧
    (tocard CMD_TRANCEIVE [ANTCOL1, 0x20] bigFifoEnv).2.1.length = 16 ∧
    (tocard CMD_TRANCEIVE [ANTCOL1, 0x20] bigFifoEnv).2.2 = 160 ∧
    ¬ ((tocard CMD_TRANCEIVE [ANTCOL1, 0x20] bigFifoEnv).2.2 ≤
        8 * ((tocard CMD_TRANCEIVE [ANTCOL1, 0x20] bigFifoEnv).2.1.length : Int)) := by
  decide

/-- C4 (amended): whenever the FIFO fill level read from the chip is at
most 16 (including 0), every `_tocard` outcome satisfies
`bits ≤ 8 × len(recv)`; above 16 the byte count is clamped to 16 while
the bit count follows the unclamped level, and the bound can fail. -/
theorem c4_amended_bits_bound (cmd : Nat) (send : List Nat) (env : TocardEnv)
    (h : env.fifoLevel ≤ 16) :
    (tocard cmd send env).2.2 ≤ 8 * ((tocard cmd send env).2.1.length : Int) := by
  have hl : env.control &&& 0x07 ≤ 7 := Nat.and_le_right
  simp only [tocard]
  split
  · split
    · split
      · simp
      · split
        · simp only [List.length_map, List.length_range]
          split
          · split
            · rename_i hlb hnl
              rw [hnl]
              omega
            · split
              · omega
              · omega
          · split
            · rename_i hlb hnl
              rw [hnl]
              simp
            · split
              · omega
              · omega
        · simp
    · simp
  · simp

/-- Witness for C4 (amended) at a transaction with FIFO level 2. -/
theorem c4_witness :
    reqEnv.fifoLevel ≤ 16 ∧
    (tocard CMD_TRANCEIVE [0x26] reqEnv).2.2 ≤
      8 * ((tocard CMD_TRANCEIVE [0x26] reqEnv).2.1.length : Int) :=
  ⟨by decide, c4_amended_bits_bound CMD_TRANCEIVE [0x26] reqEnv (by decide)⟩

/-- C5: when the transceive underlying `_anticoll` returns `(stat,
recv, bits)`, then (a) `_anticoll` hands back exactly `recv`; (b) on a
5-byte `recv` with outcome OK, a checksum mismatch (XOR of the first
four bytes differing from the fifth) yields ERR, and a matching
checksum yields OK with the raw 5-byte fragment; (c) on outcome OK with
any length other than 5, `_anticoll` yields ERR. -/
theorem c5_anticoll_checksum (env : ChipEnv) (s : ChipState) (a stat : Nat)
    (recv : List Nat) (bits : Int)
    (ht : tocard CMD_TRANCEIVE [a, 0x20] (env.tocardEnvs s.tIdx) = (stat, recv, bits)) :
    ((anticoll env s a).1.2 = recv) ∧
    (stat = OK → ∀ r0 r1 r2 r3 r4 : Nat, recv = [r0, r1, r2, r3, r4] →
       ((r0 ^^^ r1 ^^^ r2 ^^^ r3 ≠ r4 → (anticoll env s a).1.1 = ERR) ∧
        (r0 ^^^ r1 ^^^ r2 ^^^ r3 = r4 → (anticoll env s a).1 = (OK, recv)))) ∧
    (stat = OK → recv.length ≠ 5 → (anticoll env s a).1.1 = ERR) := by
  refine ⟨?_, ?_, ?_⟩
  · simp [anticoll, runTocard, ht]
  · intro hOK r0 r1 r2 r3 r4 hrecv
    subst hOK
    subst hrecv
    constructor
    · intro hne
      simp [anticoll, runTocard, ht, Nat.zero_xor, hne]
    · intro heq
      simp [anticoll, runTocard, ht, Nat.zero_xor, heq]
  · intro hOK hlen
    subst hOK
    simp [anticoll, runTocard, ht, hlen]

/-- Witness for C5 at the checksum-mismatch response `[1,1,1,1,1]`. -/
theorem c5_witness :
    (tocard CMD_TRANCEIVE [ANTCOL1, 0x20] (envBad.tocardEnvs s0.tIdx) =
      (OK, [1, 1, 1, 1, 1], 40)) ∧
    (1 ^^^ 1 ^^^ 1 ^^^ 1 ≠ 1) ∧
    (anticoll envBad s0 ANTCOL1).1.1 = ERR :=
  ⟨by decide, by decide,
   ((c5_anticoll_checksum envBad s0 ANTCOL1 OK [1, 1, 1, 1, 1] 40 (by decide)).2.1
      rfl 1 1 1 1 1 rfl).1 (by decide)⟩

/-- C6: after a validated L1 fragment `f` and a successful L1 select,
the cascade escalates if and only if `f` starts with 0x88; when it does
not, `_readTagID` stops in the state `s2` reached by the L1 select
(invoking no L2/L3 logic) and returns the 4-byte UID `f.take 4` with
kind "classic"; when it does, the run continues exactly as the L2
stage from `s2`. -/
theorem c6_cascade_escalation (env : ChipEnv) (s s1 s2 : ChipState) (f : List Nat)
    (hA : anticoll env s ANTCOL1 = ((OK, f), s1))
    (hS : selectTag env s1 f ANTCOL1 = (1, s2)) :
    (f.headD 0 ≠ 0x88 →
       readTagIDInner env s = (⟨true, f.take 4, formatId (f.take 4), "classic"⟩, s2)) ∧
    (f.headD 0 = 0x88 →
       readTagIDInner env s = readTagCascadeL2 env s2 ((f.drop 1).take 3)) := by
  have hlen : f.length = 5 := by
    have h5 := anticoll_ok_length env s ANTCOL1 (by rw [hA])
    rwa [hA] at h5
  have htake : f.take 5 = f := List.take_of_length_le (by omega)
  constructor
  · intro hne
    rw [List.headD_eq_head?] at hne
    simp [readTagIDInner, hA, hS, hne, finishUid, htake, hlen]
  · intro heq
    rw [List.headD_eq_head?] at heq
    simp [readTagIDInner, hA, hS, heq]

/-- Witness for C6 at a single-level fragment `[1, 2, 3, 4, 4]`. -/
theorem c6_witness :
    (anticoll envClassic s0 ANTCOL1 =
      ((OK, [1, 2, 3, 4, 4]), ⟨1, 0, [(12, [147, 32])]⟩)) ∧
    (selectTag envClassic ⟨1, 0, [(12, [147, 32])]⟩ [1, 2, 3, 4, 4] ANTCOL1 =
      (1, ⟨2, 1, [(12, [147, 32]), (12, [147, 112, 1, 2, 3, 4, 4, 0, 0])]⟩)) ∧
    (([1, 2, 3, 4, 4] : List Nat).headD 0 ≠ 0x88 →
      readTagIDInner envClassic s0 =
        (⟨true, [1, 2, 3, 4], formatId [1, 2, 3, 4], "classic"⟩,
         ⟨2, 1, [(12, [147, 32]), (12, [147, 112, 1, 2, 3, 4, 4, 0, 0])]⟩)) :=
  ⟨by decide, by decide,
   (c6_cascade_escalation envClassic s0
      ⟨1, 0, [(12, [147, 32])]⟩
      ⟨2, 1, [(12, [147, 32]), (12, [147, 112, 1, 2, 3, 4, 4, 0, 0])]⟩
      [1, 2, 3, 4, 4]
      (by decide) (by decide)).1⟩

/-- C7 (the code): for every starting register file, `antennaOff` is a
no-op — its guard `not (~(tx & 0x03))` is always false because `~n` of a
nonnegative int is never zero — so the low two bits of the tx-control
register are NOT cleared; `antennaOn` unconditionally sets them (along
with bit 7, mask 0x83).  The claim's description of `antennaOff` is the
documented intent; the code never performs the clear. -/
theorem c7_antenna_toggle_bug : ∀ regs : Nat → Nat,
    antennaOff regs = regs ∧
    (antennaOn regs) REG_TX_CONTROL &&& 0x03 = 0x03 := by
  intro regs
  have hinv : ∀ n : Nat, pyInvert n ≠ 0 := by
    intro n
    simp only [pyInvert]
    omega
  constructor
  · simp [antennaOff, hinv]
  · rw [antennaOn, if_pos (hinv _)]
    simp only [sflagsFile, wregFile, if_pos rfl]
    apply Nat.eq_of_testBit_eq
    intro i
    simp only [Nat.testBit_land, Nat.testBit_lor]
    match i with
    | 0 => simp
    | 1 =>
      have h131 : Nat.testBit 131 1 = true := by decide
      simp [h131]
    | (n + 2) =>
      have h3 : Nat.testBit 3 (n + 2) = false := by
        rw [Nat.testBit_add_one, Nat.testBit_add_one]
        norm_num
      simp [h3]

/-- C8: the completion poll of `_tocard` performs at most 20000 reads
of the interrupt-request register, and whenever none of the first 20000
observed values shows the command's wait bit or the timer bit 0x01, the
loop ends by budget exhaustion and `_tocard` returns ERR with an empty
byte sequence and bit count 0. -/
theorem c8_poll_budget (cmd : Nat) (send : List Nat) (env : TocardEnv) :
    (pollLoop env.irq (irqBits cmd).2 0 20000).2.2 ≤ 20000 ∧
    ((∀ j < 20000, env.irq j &&& (irqBits cmd).2 = 0 ∧ env.irq j &&& 1 = 0) →
      tocard cmd send env = (ERR, [], 0)) := by
  constructor
  · have hle := pollLoop_reads_le env.irq (irqBits cmd).2 19999 0
    rw [show (19999 + 1 : Nat) = 20000 from rfl] at hle
    simpa using hle
  · intro hq
    have he := pollLoop_exhaust env.irq (irqBits cmd).2 19999 0
      (fun j h1 h2 => hq j (by omega))
    rw [show (19999 + 1 : Nat) = 20000 from rfl] at he
    rw [show (0 + 19999 : Nat) = 19999 from rfl] at he
    simp only [tocard, he]
    simp

/-- Witness for C8 at the all-zero interrupt register stream. -/
theorem c8_witness :
    (∀ j < 20000, zeroEnv.irq j &&& (irqBits CMD_TRANCEIVE).2 = 0 ∧
       zeroEnv.irq j &&& 1 = 0) ∧
    tocard CMD_TRANCEIVE [0x26] zeroEnv = (ERR, [], 0) :=
  ⟨fun j hj => ⟨by simp [zeroEnv], by simp [zeroEnv]⟩,
   (c8_poll_budget CMD_TRANCEIVE [0x26] zeroEnv).2
     (fun j hj => ⟨by simp [zeroEnv], by simp [zeroEnv]⟩)⟩

/-- C9: for every UID of bytes with length 4, 7 or 10, splitting the
formatted string produced by `_readTagID`'s formatting on the colon and
hex-decoding each piece reproduces exactly the original UID. -/
theorem c9_format_roundtrip (uid : List Nat) (hb : ∀ b ∈ uid, b < 256)
    (hlen : uid.length = 4 ∨ uid.length = 7 ∨ uid.length = 10) :
    (splitCols ((formatId uid).data)).map hexDecode = uid :=
  roundTrip uid hb
    (by rcases hlen with h | h | h <;> exact List.ne_nil_of_length_pos (by omega))

/-- Witness for C9 at the 4-byte UID `[0, 26, 255, 4]`. -/
theorem c9_witness :
    (∀ b ∈ ([0, 26, 255, 4] : List Nat), b < 256) ∧
    (([0, 26, 255, 4] : List Nat).length = 4 ∨
     ([0, 26, 255, 4] : List Nat).length = 7 ∨
     ([0, 26, 255, 4] : List Nat).length = 10) ∧
    (splitCols ((formatId [0, 26, 255, 4]).data)).map hexDecode = [0, 26, 255, 4] :=
  ⟨by decide, by decide,
   c9_format_roundtrip [0, 26, 255, 4] (by decide) (by decide)⟩

/-- C10: `tagPresent` returns true if and only if the full
identification succeeds: the detection (including its single retry)
reports a tag present and the complete anticollision cascade from the
resulting state succeeds.  In particular a tag that answers REQA but
fails any anticollision, checksum, or select step gives false. -/
theorem c10_tagPresent_iff (env : ChipEnv) (s : ChipState) :
    (tagPresent env s).1 = true ↔
      ((if (detectTag env s).1.present = false
          then detectTag env (detectTag env s).2
          else detectTag env s).1.present = true ∧
       (readTagIDInner env (if (detectTag env s).1.present = false
          then detectTag env (detectTag env s).2
          else detectTag env s).2).1.success = true) := by
  rcases hd1 : detectTag env s with ⟨d1, s1⟩
  rcases hd2 : (if d1.present = false then detectTag env s1 else (d1, s1)) with ⟨d2, s2⟩
  rcases hr : readTagIDInner env s2 with ⟨r, s3⟩
  simp only [tagPresent, readTagID, hd1, hd2, hr]
  by_cases hp : d2.present = true
  · by_cases hs : r.success = true
    · simp [hp, hs]
    · simp only [Bool.not_eq_true] at hs
      simp [hp, hs, failRead]
  · simp only [Bool.not_eq_true] at hp
    simp [hp, failRead]

end Rfid
